import Mathlib

/-!
Verification of the Stremio addon/catalog/auth core
(`stremio_auth.py`, `stremio_credentials.py`, `stremio_addon_service.py`,
`stremio_catalog_service.py`).

The Python code manipulates JSON-decoded values (dicts, lists, strings,
numbers, booleans, None).  We embed those as the inductive type `JVal`,
and we model Python's dynamic semantics explicitly: attribute/subscript
errors and `TypeError`s raised on ill-typed values are modelled with
`Except String`, truthiness with `pyTruthy`, the `in` operator with
`pyInS`, `str()` with `pyStr`, iteration with `pyIter`, and list/str
slicing `x[:n]` with `pySliceTo`.
-/

/-- JSON value, the universe of values decoded from API responses and
manifests. -/
inductive JVal where
  | str (s : String)
  | num (n : Int)
  | bool (b : Bool)
  | null
  | arr (xs : List JVal)
  | obj (fs : List (String × JVal))
deriving Repr, Inhabited

mutual

/-- Boolean structural equality on `JVal`. -/
def jvalBEq : JVal → JVal → Bool
  | .str a, .str b => a == b
  | .num a, .num b => a == b
  | .bool a, .bool b => a == b
  | .null, .null => true
  | .arr xs, .arr ys => jvalListBEq xs ys
  | .obj fs, .obj gs => jvalObjBEq fs gs
  | _, _ => false

/-- Boolean equality on lists of `JVal`. -/
def jvalListBEq : List JVal → List JVal → Bool
  | [], [] => true
  | x :: xs, y :: ys => jvalBEq x y && jvalListBEq xs ys
  | _, _ => false

/-- Boolean equality on dict entry lists. -/
def jvalObjBEq : List (String × JVal) → List (String × JVal) → Bool
  | [], [] => true
  | (k, v) :: fs, (k', v') :: gs => k == k' && jvalBEq v v' && jvalObjBEq fs gs
  | _, _ => false

end

mutual

theorem jvalBEq_iff : ∀ a b : JVal, jvalBEq a b = true ↔ a = b
  | .str a, .str b => by simp [jvalBEq]
  | .num a, .num b => by simp [jvalBEq]
  | .bool a, .bool b => by simp [jvalBEq]
  | .null, .null => by simp [jvalBEq]
  | .arr xs, .arr ys => by simp [jvalBEq, jvalListBEq_iff xs ys]
  | .obj fs, .obj gs => by simp [jvalBEq, jvalObjBEq_iff fs gs]
  | .str _, .num _ | .str _, .bool _ | .str _, .null | .str _, .arr _ | .str _, .obj _
  | .num _, .str _ | .num _, .bool _ | .num _, .null | .num _, .arr _ | .num _, .obj _
  | .bool _, .str _ | .bool _, .num _ | .bool _, .null | .bool _, .arr _ | .bool _, .obj _
  | .null, .str _ | .null, .num _ | .null, .bool _ | .null, .arr _ | .null, .obj _
  | .arr _, .str _ | .arr _, .num _ | .arr _, .bool _ | .arr _, .null | .arr _, .obj _
  | .obj _, .str _ | .obj _, .num _ | .obj _, .bool _ | .obj _, .null | .obj _, .arr _ =>
      by simp [jvalBEq]

theorem jvalListBEq_iff : ∀ xs ys : List JVal, jvalListBEq xs ys = true ↔ xs = ys
  | [], [] => by simp [jvalListBEq]
  | x :: xs, y :: ys => by
      simp [jvalListBEq, jvalBEq_iff x y, jvalListBEq_iff xs ys]
  | [], _ :: _ => by simp [jvalListBEq]
  | _ :: _, [] => by simp [jvalListBEq]

theorem jvalObjBEq_iff : ∀ fs gs : List (String × JVal), jvalObjBEq fs gs = true ↔ fs = gs
  | [], [] => by simp [jvalObjBEq]
  | (k, v) :: fs, (k', v') :: gs => by
      simp [jvalObjBEq, jvalBEq_iff v v', jvalObjBEq_iff fs gs, Prod.ext_iff, and_assoc]
  | [], _ :: _ => by simp [jvalObjBEq]
  | _ :: _, [] => by simp [jvalObjBEq]

end

instance : DecidableEq JVal := fun a b =>
  decidable_of_iff (jvalBEq a b = true) (jvalBEq_iff a b)

instance : BEq JVal := ⟨jvalBEq⟩

deriving instance DecidableEq for Except

instance : LawfulBEq JVal where
  eq_of_beq h := (jvalBEq_iff _ _).mp h
  rfl := (jvalBEq_iff _ _).mpr rfl

/-- Lookup of a key in a Python-dict association list (keys are unique in a
real dict; we take the first occurrence). -/
def lookupKey : List (String × JVal) → String → Option JVal
  | [], _ => none
  | (k', v) :: rest, k => if k' = k then some v else lookupKey rest k

/-- Python dict assignment `d[k] = v`: replace the value at an existing key
(position preserved), else append the new binding. -/
def setKey : List (String × JVal) → String → JVal → List (String × JVal)
  | [], k, v => [(k, v)]
  | (k', v') :: rest, k, v =>
      if k' = k then (k, v) :: rest else (k', v') :: setKey rest k v

/-- Python truthiness of a JSON value: `None`, `False`, `0`, `""`, `[]`,
`{}` are falsy, everything else truthy. -/
def pyTruthy : JVal → Bool
  | .str s => !(s == "")
  | .num n => !(n == 0)
  | .bool b => b
  | .null => false
  | .arr xs => !xs.isEmpty
  | .obj fs => !fs.isEmpty

mutual

/-- Python `str()` of a JSON value. -/
def pyStr : JVal → String
  | .str s => s
  | .num n => toString n
  | .bool true => "True"
  | .bool false => "False"
  | .null => "None"
  | .arr xs => "[" ++ pyReprList xs ++ "]"
  | .obj fs => "\x7b" ++ pyReprObj fs ++ "\x7d"

/-- Python `repr()` of a JSON value (as it appears inside containers). -/
def pyRepr : JVal → String
  | .str s => "'" ++ s ++ "'"
  | .num n => toString n
  | .bool true => "True"
  | .bool false => "False"
  | .null => "None"
  | .arr xs => "[" ++ pyReprList xs ++ "]"
  | .obj fs => "\x7b" ++ pyReprObj fs ++ "\x7d"

/-- Comma-separated reprs of list elements. -/
def pyReprList : List JVal → String
  | [] => ""
  | [x] => pyRepr x
  | x :: xs => pyRepr x ++ ", " ++ pyReprList xs

/-- Comma-separated `'k': v` reprs of dict entries. -/
def pyReprObj : List (String × JVal) → String
  | [] => ""
  | [(k, v)] => "'" ++ k ++ "': " ++ pyRepr v
  | (k, v) :: fs => "'" ++ k ++ "': " ++ pyRepr v ++ ", " ++ pyReprObj fs

end

/-- Python `d.get(k, dflt)`: raises `AttributeError` when the receiver is
not a dict. -/
def pyGetD (v : JVal) (k : String) (dflt : JVal) : Except String JVal :=
  match v with
  | .obj fs => .ok ((lookupKey fs k).getD dflt)
  | _ => .error "AttributeError: object has no attribute get"

/-- Total dict lookup with default: yields the default when the receiver
is not a dict.  Used on the specification side and after dict-ness has
been established. -/
def jLookupD (v : JVal) (k : String) (dflt : JVal) : JVal :=
  match v with
  | .obj fs => (lookupKey fs k).getD dflt
  | _ => dflt

/-- Python `for x in v`: lists iterate elements, strings iterate
single-character strings, dicts iterate keys; other values raise
`TypeError`. -/
def pyIter : JVal → Except String (List JVal)
  | .arr xs => .ok xs
  | .str s => .ok (s.toList.map fun c => .str (String.mk [c]))
  | .obj fs => .ok (fs.map fun kv => .str kv.1)
  | _ => .error "TypeError: object is not iterable"

/-- Substring test on the character lists underlying Python `str in str`. -/
def charsContain (needle : List Char) : List Char → Bool
  | [] => needle = []
  | c :: rest => needle.isPrefixOf (c :: rest) || charsContain needle rest

/-- Python `s in v` for a string needle `s`: membership for lists (`==`
against each element), substring test for strings, key membership for
dicts; `TypeError` otherwise. -/
def pyInS (s : String) : JVal → Except String Bool
  | .arr xs => .ok (xs.contains (.str s))
  | .str t => .ok (charsContain s.toList t.toList)
  | .obj fs => .ok (fs.any fun kv => kv.1 = s)
  | _ => .error "TypeError: argument is not iterable"

/-- Python `v[k]` for a string key: dict lookup (`KeyError` when absent),
`TypeError` for every other receiver. -/
def pySubscript (v : JVal) (k : String) : Except String JVal :=
  match v with
  | .obj fs =>
      match lookupKey fs k with
      | some x => .ok x
      | none => .error "KeyError"
  | _ => .error "TypeError: indices must be integers"

/-- Python `len(v)`: defined for strings, lists and dicts, `TypeError`
otherwise. -/
def pyLen : JVal → Option Nat
  | .str s => some s.length
  | .arr xs => some xs.length
  | .obj fs => some fs.length
  | _ => none

/-- `xs[:n]` on a Lean list for a Python int `n` (negative `n` counts from
the end). -/
def listSliceTo (n : Int) (xs : List JVal) : List JVal :=
  if 0 ≤ n then xs.take n.toNat
  else xs.take (xs.length - (-n).toNat)

/-- Python `v[:n]`: slicing is defined for lists and strings and raises
`TypeError` for every other value. -/
def pySliceTo (v : JVal) (n : Int) : Except String JVal :=
  match v with
  | .arr xs => .ok (.arr (listSliceTo n xs))
  | .str s =>
      .ok (.str (String.mk (if 0 ≤ n then s.toList.take n.toNat
                            else s.toList.take (s.length - (-n).toNat))))
  | _ => .error "TypeError: object is not subscriptable"

/-!
## Credential Store (`stremio_credentials.py`)

The GSettings-backed store persists three scalar strings.  `set_string`
raises before writing when handed a non-string value, which is why the
auth-service functions below thread an `Except`.
-/

/-- The three persisted configuration entries
(`stremio-auth-key`, `stremio-user-email`, `stremio-user-id`). -/
structure Schema where
  authKey : String
  userEmail : String
  userId : String
deriving DecidableEq, Repr

namespace StremioCredentials

/-- `StremioCredentials.clear`: writes the empty string to all three
entries. -/
def clear (_s : Schema) : Schema := ⟨"", "", ""⟩

/-- `StremioCredentials.is_logged_in`: true iff the stored auth key is
non-empty. -/
def is_logged_in (s : Schema) : Bool := s.authKey.length > 0

/-- `StremioCredentials.save_user_data`: when `user` is truthy, writes
`user.get('email', '')` and `user.get('_id', '')`; `set_string` raises on a
non-string value (and on a non-dict `user`, `.get` raises first).  Returns
the error (if any) together with the store contents after the writes that
did complete. -/
def save_user_data (user : JVal) (s : Schema) : Except String Unit × Schema :=
  if pyTruthy user then
    match user with
    | .obj fs =>
        match (lookupKey fs "email").getD (.str "") with
        | .str em =>
            let s1 : Schema := { s with userEmail := em }
            match (lookupKey fs "_id").getD (.str "") with
            | .str uid => (.ok (), { s1 with userId := uid })
            | _ => (.error "TypeError: value is not a string", s1)
        | _ => (.error "TypeError: value is not a string", s)
    | _ => (.error "AttributeError: object has no attribute get", s)
  else (.ok (), s)

end StremioCredentials

/-!
## Remote call primitive (`_request` in `stremio_auth.py` and
`stremio_addon_service.py`)

A network interaction is abstracted as a `RequestOutcome`: the request
either timed out, failed at the transport level, failed with some other
`requests` exception, or produced a response with a status code and a
body (`none` models a body that is not valid JSON — `response.json()`
raises a `RequestException` subclass).
-/

/-- Outcome of one `requests.post`/`requests.get` call. -/
inductive RequestOutcome where
  | timeout
  | connError
  | reqError (msg : String)
  | resp (status : Nat) (body : Option JVal)
deriving DecidableEq, Repr

/-- Message extraction for an `error` payload: a dict yields its
`message` field (or its own `str()`), anything else its `str()`. -/
def errMsgOf (e : JVal) : String :=
  match e with
  | .obj fs =>
      match lookupKey fs "message" with
      | some m => pyStr m
      | none => pyStr (.obj fs)
  | other => pyStr other

/-- The shared `_request` result logic: non-200 status, timeout,
connection error and invalid JSON each raise with their message; a JSON
body with a top-level `error` field raises with the extracted message; a
body without a `result` field raises; otherwise the `result` field is
returned.  `'error' in data` / `'result' in data` / `data['error']`
follow Python semantics when the body is not a dict. -/
def requestResult (o : RequestOutcome) : Except String JVal :=
  match o with
  | .timeout => .error "Request timed out"
  | .connError => .error "Connection error. Please check your internet connection."
  | .reqError m => .error ("Request failed: " ++ m)
  | .resp status body =>
      if status ≠ 200 then
        .error ("Request failed with status code " ++ toString status)
      else
        match body with
        | none => .error "Request failed: invalid JSON"
        | some data =>
            match pyInS "error" data with
            | .error e => .error e
            | .ok true =>
                match pySubscript data "error" with
                | .error e => .error e
                | .ok e => .error (errMsgOf e)
            | .ok false =>
                match pyInS "result" data with
                | .error e => .error e
                | .ok false => .error "Response has no result"
                | .ok true =>
                    match pySubscript data "result" with
                    | .error e => .error e
                    | .ok r => .ok r

namespace StremioAuthService

/-- The `result['user']` branch of `login`: if the result contains a
`user` field, persist it and format the log line
(`result['user'].get('email', 'unknown')` raises on a non-dict user). -/
def loginUserStep (result : JVal) (s : Schema) : Except String JVal × Schema :=
  match pyInS "user" result with
  | .error e => (.error e, s)
  | .ok false => (.ok result, s)
  | .ok true =>
      match pySubscript result "user" with
      | .error e => (.error e, s)
      | .ok u =>
          match StremioCredentials.save_user_data u s with
          | (.error e, s2) => (.error e, s2)
          | (.ok _, s2) =>
              match u with
              | .obj _ => (.ok result, s2)
              | _ => (.error "AttributeError: object has no attribute get", s2)

/-- `StremioAuthService.login`: performs the remote call; on failure the
exception propagates and no credential is written.  On success, stores
`result['authKey']` when present (a non-string key makes `set_string`
raise) and the user data when present, and returns the result. -/
def login (o : RequestOutcome) (s : Schema) : Except String JVal × Schema :=
  match requestResult o with
  | .error e => (.error e, s)
  | .ok result =>
      match pyInS "authKey" result with
      | .error e => (.error e, s)
      | .ok false => loginUserStep result s
      | .ok true =>
          match pySubscript result "authKey" with
          | .error e => (.error e, s)
          | .ok k =>
              match k with
              | .str ks => loginUserStep result { s with authKey := ks }
              | _ => (.error "TypeError: value is not a string", s)

/-- `StremioAuthService.logout`: attempts the remote invalidation when an
auth key is held (its outcome, error or not, is swallowed), then always
clears the local credentials. -/
def logout (authKey : String) (o : RequestOutcome) (s : Schema) : Schema :=
  let _attempt := if authKey ≠ "" then some (requestResult o) else none
  StremioCredentials.clear s

/-- `StremioAuthService.get_stored_email`: projection of the store. -/
def get_stored_email (s : Schema) : String := s.userEmail

end StremioAuthService

namespace StremioAddonService

/-- `StremioAddonService.get_addon_collection`: raises when no auth key
is stored, otherwise performs `addonCollectionGet` and raises unless the
result's `addons` field is a list. -/
def get_addon_collection (authKey : String) (o : RequestOutcome) :
    Except String (List JVal) :=
  if authKey = "" then .error "User must be logged in to fetch addons"
  else
    match requestResult o with
    | .error e => .error e
    | .ok result =>
        match result with
        | .obj fs =>
            match (lookupKey fs "addons").getD .null with
            | .arr xs => .ok xs
            | _ => .error "Invalid addon collection response"
        | _ => .error "AttributeError: object has no attribute get"

/-- The log line shared by enable/disable/remove:
`addon.get('manifest', {}).get('name', 'Unknown')` — raises when the
addon is not a dict or its `manifest` value is present but not a dict. -/
def logAddonName (addon : JVal) : Except String Unit :=
  match pyGetD addon "manifest" (.obj []) with
  | .error e => .error e
  | .ok m =>
      match pyGetD m "name" (.str "Unknown") with
      | .error e => .error e
      | .ok _ => .ok ()

/-- `StremioAddonService.enable_addon`: in bounds, sets
`addons[i]['enabled'] = True` (a non-dict element raises) and logs; out of
bounds, returns the collection unchanged. -/
def enable_addon (addons : List JVal) (i : Int) : Except String (List JVal) :=
  if 0 ≤ i ∧ i < (addons.length : Int) then
    match addons[i.toNat]? with
    | some (.obj fs) =>
        let a' : JVal := .obj (setKey fs "enabled" (.bool true))
        match logAddonName a' with
        | .error e => .error e
        | .ok _ => .ok (addons.set i.toNat a')
    | some _ => .error "TypeError: object does not support item assignment"
    | none => .error "unreachable: index in bounds"
  else .ok addons

/-- `StremioAddonService.disable_addon`: as `enable_addon` with
`False`. -/
def disable_addon (addons : List JVal) (i : Int) : Except String (List JVal) :=
  if 0 ≤ i ∧ i < (addons.length : Int) then
    match addons[i.toNat]? with
    | some (.obj fs) =>
        let a' : JVal := .obj (setKey fs "enabled" (.bool false))
        match logAddonName a' with
        | .error e => .error e
        | .ok _ => .ok (addons.set i.toNat a')
    | some _ => .error "TypeError: object does not support item assignment"
    | none => .error "unreachable: index in bounds"
  else .ok addons

/-- `StremioAddonService.remove_addon`: in bounds, pops the element at
the index (the log line may still raise on an ill-typed element); out of
bounds, returns the collection unchanged. -/
def remove_addon (addons : List JVal) (i : Int) : Except String (List JVal) :=
  if 0 ≤ i ∧ i < (addons.length : Int) then
    match addons[i.toNat]? with
    | some removed =>
        match logAddonName removed with
        | .error e => .error e
        | .ok _ => .ok (addons.take i.toNat ++ addons.drop (i.toNat + 1))
    | none => .error "unreachable: index in bounds"
  else .ok addons

end StremioAddonService

/-!
## Catalog Aggregator (`stremio_catalog_service.py`)
-/

/-- The catalog descriptor dict built by `get_catalogs_for_type`. -/
structure CatalogDesc where
  addon_name : JVal
  addon_id : JVal
  catalog_id : JVal
  catalog_name : JVal
  catalog_type : JVal
  transport_url : JVal
  extra : JVal
deriving DecidableEq, Repr

/-- The catalog section dict built by `fetch_all_catalogs_for_type`. -/
structure CatalogSection where
  catalog_name : JVal
  addon_name : JVal
  catalog_id : JVal
  items : JVal
deriving DecidableEq, Repr

namespace StremioCatalogService

/-- The `for resource in resources` scan of `get_catalogs_for_type`:
breaks at the first qualifying resource — the literal string `"catalog"`,
or a dict named `"catalog"` whose types (`resource.get('types',
manifest.get('types', []))`, passed here as `mtypes`) contain the content
type.  A named dict with non-matching types is skipped; `content_type in
resource_types` raises on a non-iterable types value. -/
def scanResources (ct : String) (mtypes : JVal) :
    List JVal → Except String Bool
  | [] => .ok false
  | r :: rest =>
      match r with
      | .str s =>
          if s = "catalog" then .ok true else scanResources ct mtypes rest
      | .obj fs =>
          if (lookupKey fs "name").getD .null = .str "catalog" then
            match pyInS ct ((lookupKey fs "types").getD mtypes) with
            | .error e => .error e
            | .ok true => .ok true
            | .ok false => scanResources ct mtypes rest
          else scanResources ct mtypes rest
      | _ => scanResources ct mtypes rest

/-- Descriptor construction (the dict literal at the bottom of the
`for catalog in addon_catalogs` loop). -/
def mkDesc (manifest turl c : JVal) : CatalogDesc :=
  { addon_name := jLookupD manifest "name" (.str "Unknown Addon")
    addon_id := jLookupD manifest "id" (.str "")
    catalog_id := jLookupD c "id" .null
    catalog_name := jLookupD c "name" (.str "Unknown Catalog")
    catalog_type := jLookupD c "type" .null
    transport_url := turl
    extra := jLookupD c "extra" (.arr []) }

/-- The `for catalog in addon_catalogs` loop: each entry whose `type`
equals the content type becomes one descriptor (entries that are not
dicts raise at `catalog.get('type')`). -/
def buildDescs (ct : String) (manifest turl : JVal) :
    List JVal → Except String (List CatalogDesc)
  | [] => .ok []
  | c :: cs =>
      match pyGetD c "type" .null with
      | .error e => .error e
      | .ok ctype =>
          match pyGetD c "id" .null with
          | .error e => .error e
          | .ok _ =>
              match pyGetD c "name" (.str "Unknown Catalog") with
              | .error e => .error e
              | .ok _ =>
                  if ctype ≠ .str ct then buildDescs ct manifest turl cs
                  else
                    match buildDescs ct manifest turl cs with
                    | .error e => .error e
                    | .ok rest => .ok (mkDesc manifest turl c :: rest)

/-- The `for addon in addons` loop of `get_catalogs_for_type`: skip
disabled addons, skip falsy manifests/transport urls, scan resources,
collect matching catalog entries.  Any raise propagates (the caller's
blanket `except` turns it into an empty result). -/
def catalogs_of_addons (ct : String) :
    List JVal → Except String (List CatalogDesc)
  | [] => .ok []
  | a :: rest =>
      match pyGetD a "enabled" (.bool true) with
      | .error e => .error e
      | .ok enabled =>
          if !pyTruthy enabled then catalogs_of_addons ct rest
          else
            match pyGetD a "manifest" (.obj []) with
            | .error e => .error e
            | .ok manifest =>
                match pyGetD a "transportUrl" (.str "") with
                | .error e => .error e
                | .ok turl =>
                    if !pyTruthy manifest || !pyTruthy turl then
                      catalogs_of_addons ct rest
                    else
                      match pyGetD manifest "resources" (.arr []) with
                      | .error e => .error e
                      | .ok resources =>
                          match pyIter resources with
                          | .error e => .error e
                          | .ok rlist =>
                              match pyGetD manifest "types" (.arr []) with
                              | .error e => .error e
                              | .ok mtypes =>
                                  match scanResources ct mtypes rlist with
                                  | .error e => .error e
                                  | .ok hasCat =>
                                      if !hasCat then catalogs_of_addons ct rest
                                      else
                                        match pyGetD manifest "catalogs" (.arr []) with
                                        | .error e => .error e
                                        | .ok cats =>
                                            match pyIter cats with
                                            | .error e => .error e
                                            | .ok clist =>
                                                match buildDescs ct manifest turl clist with
                                                | .error e => .error e
                                                | .ok descs =>
                                                    match catalogs_of_addons ct rest with
                                                    | .error e => .error e
                                                    | .ok restDescs =>
                                                        .ok (descs ++ restDescs)

/-- `StremioCatalogService.get_catalogs_for_type`: empty when not logged
in; otherwise fetches the addon collection and runs the discovery loop,
and any exception in the pass degrades to the empty list. -/
def get_catalogs_for_type (s : Schema) (o : RequestOutcome) (ct : String) :
    List CatalogDesc :=
  if !StremioCredentials.is_logged_in s then []
  else
    match StremioAddonService.get_addon_collection s.authKey o with
    | .error _ => []
    | .ok addons =>
        match catalogs_of_addons ct addons with
        | .error _ => []
        | .ok cs => cs

/-- Python `s.rstrip('/')`. -/
def rstripSlashes (s : String) : String :=
  String.mk (s.toList.reverse.dropWhile (· == '/')).reverse

/-- Python `s.endswith(suffix)`. -/
def strEndsWith (s suffix : String) : Bool :=
  suffix.toList.isSuffixOf s.toList

/-- Python `s[:-n]` for `0 < n <= len(s)` (used with `n = 14` to drop
`/manifest.json`). -/
def strDropRight (s : String) (n : Nat) : String :=
  String.mk (s.toList.take (s.toList.length - n))

/-- The URL built by `fetch_catalog_content`: strip trailing slashes,
strip a trailing `/manifest.json`, then append
`/catalog/{type}/{id}[/skip={skip}].json` (the skip segment appears
exactly when `skip > 0`). -/
def build_catalog_url (turl ty id : String) (skip : Int) : String :=
  let base0 := rstripSlashes turl
  let base := if strEndsWith base0 "/manifest.json" then strDropRight base0 14 else base0
  if skip > 0 then
    base ++ "/catalog/" ++ ty ++ "/" ++ id ++ "/skip=" ++ toString skip ++ ".json"
  else
    base ++ "/catalog/" ++ ty ++ "/" ++ id ++ ".json"

/-- The URL formula as the claim words it (for comparison with
`build_catalog_url`): strip any trailing `/manifest.json` from the
transport URL — with no prior slash stripping — and append the catalog
path. -/
def claim_catalog_url (turl ty id : String) (skip : Int) : String :=
  let base := if strEndsWith turl "/manifest.json" then strDropRight turl 14 else turl
  if skip > 0 then
    base ++ "/catalog/" ++ ty ++ "/" ++ id ++ "/skip=" ++ toString skip ++ ".json"
  else
    base ++ "/catalog/" ++ ty ++ "/" ++ id ++ ".json"

/-- `StremioCatalogService.fetch_catalog_content`: a GET of the built
catalog URL (`net` gives the outcome per URL).  Every failure — a
non-string transport url, timeout, connection error, non-200 status,
invalid JSON, a non-dict body, or a `metas` value `len()` rejects — is
caught and yields `[]`; otherwise the `metas` field (default `[]`) is
returned as is. -/
def fetch_catalog_content (net : String → RequestOutcome) (d : CatalogDesc)
    (skip : Int) : JVal :=
  match d.transport_url with
  | .str turl =>
      let url := build_catalog_url turl (pyStr d.catalog_type) (pyStr d.catalog_id) skip
      match net url with
      | .timeout => .arr []
      | .connError => .arr []
      | .reqError _ => .arr []
      | .resp status body =>
          if status ≠ 200 then .arr []
          else
            match body with
            | none => .arr []
            | some data =>
                match data with
                | .obj fs =>
                    let metas := (lookupKey fs "metas").getD (.arr [])
                    match pyLen metas with
                    | some _ => metas
                    | none => .arr []
                | _ => .arr []
  | _ => .arr []

/-- The `for catalog in catalogs` loop of `fetch_all_catalogs_for_type`:
fetch each catalog (skip `0`), truncate with `items[:max]` (which raises
on a non-sliceable value — this loop has no exception handler), and keep
a section when the truncated items are truthy. -/
def fetchSections (net : String → RequestOutcome) (maxItems : Int) :
    List CatalogDesc → Except String (List CatalogSection)
  | [] => .ok []
  | c :: cs =>
      match pySliceTo (fetch_catalog_content net c 0) maxItems with
      | .error e => .error e
      | .ok items =>
          match fetchSections net maxItems cs with
          | .error e => .error e
          | .ok rest =>
              if pyTruthy items then
                .ok (⟨c.catalog_name, c.addon_name, c.catalog_id, items⟩ :: rest)
              else .ok rest

/-- `StremioCatalogService.fetch_all_catalogs_for_type`: discovery
followed by the per-catalog fetch loop. -/
def fetch_all_catalogs_for_type (s : Schema) (o : RequestOutcome)
    (net : String → RequestOutcome) (ct : String) (maxItems : Int) :
    Except String (List CatalogSection) :=
  fetchSections net maxItems (get_catalogs_for_type s o ct)

/-!
### Specification-side characterization of catalog discovery

`resQual`/`claimSection`/`claim_catalogs_for_type` restate the claim's
qualification rule as a direct per-addon predicate (with the amendments
the code forces: an enabled addon is considered only when its manifest
and transport url are truthy). -/

/-- A single resource qualifies for `ct`: it is the string `"catalog"`,
or a dict named `"catalog"` whose types (own, else the manifest's) list
contains `ct`. -/
def resQual (ct : String) (mtypes : JVal) (r : JVal) : Bool :=
  match r with
  | .str s => s = "catalog"
  | .obj fs =>
      (lookupKey fs "name").getD .null = .str "catalog" &&
        (match (lookupKey fs "types").getD mtypes with
         | .arr ts => ts.contains (.str ct)
         | _ => false)
  | _ => false

/-- The addon-level qualification of the claim: some manifest resource
qualifies. -/
def addonQualifies (ct : String) (manifest : JVal) : Bool :=
  match jLookupD manifest "resources" (.arr []) with
  | .arr rl => rl.any (resQual ct (jLookupD manifest "types" (.arr [])))
  | _ => false

/-- The manifest catalog entries. -/
def catalogEntries (manifest : JVal) : List JVal :=
  match jLookupD manifest "catalogs" (.arr []) with
  | .arr cl => cl
  | _ => []

/-- Claim-side descriptors contributed by one addon: nothing when the
addon is disabled, its manifest or transport url is falsy, or it does not
qualify; otherwise one descriptor per catalog entry of the content
type. -/
def claimSection (ct : String) (a : JVal) : List CatalogDesc :=
  let manifest := jLookupD a "manifest" (.obj [])
  let turl := jLookupD a "transportUrl" (.str "")
  if pyTruthy (jLookupD a "enabled" (.bool true)) && pyTruthy manifest &&
      pyTruthy turl && addonQualifies ct manifest then
    (catalogEntries manifest).filterMap fun c =>
      if jLookupD c "type" .null = .str ct then some (mkDesc manifest turl c)
      else none
  else []

/-- Claim-side discovery: concatenation of each addon's contribution, in
collection order. -/
def claim_catalogs_for_type (ct : String) (addons : List JVal) :
    List CatalogDesc :=
  (addons.map (claimSection ct)).flatten

end StremioCatalogService

/-!
## Well-formedness

The spec's data model (§3) types an Addon Descriptor as a dict with a
`Manifest` dict, a transport url and an `enabled` flag.  The predicates
below make that shape decidable; claim theorems quantify over collections
satisfying them (arbitrary JSON in those positions makes the Python raise
`TypeError`/`AttributeError` instead).
-/

/-- Is the value a JSON object? -/
def isObjJ : JVal → Bool
  | .obj _ => true
  | _ => false

/-- Is the value a JSON array? -/
def isArrJ : JVal → Bool
  | .arr _ => true
  | _ => false

/-- The element list of a JSON array (`[]` otherwise). -/
def asArr : JVal → List JVal
  | .arr xs => xs
  | _ => []

namespace StremioCatalogService

/-- A resource entry is well formed when, if it is a dict, its effective
types value (own `types`, else the manifest fallback `mtypes`) is a
list. -/
def wfRes (mtypes : JVal) (r : JVal) : Bool :=
  match r with
  | .obj fs => isArrJ ((lookupKey fs "types").getD mtypes)
  | _ => true

/-- A manifest is well formed when its `types`, `resources` and
`catalogs` fields, where present, are lists — resources of well-formed
entries, catalogs of dicts. -/
def wfManifest : JVal → Bool
  | .obj fs =>
      (match lookupKey fs "types" with
       | none => true
       | some t => isArrJ t) &&
      (match lookupKey fs "resources" with
       | none => true
       | some (.arr rl) => rl.all (wfRes ((lookupKey fs "types").getD (.arr [])))
       | some _ => false) &&
      (match lookupKey fs "catalogs" with
       | none => true
       | some (.arr cl) => cl.all isObjJ
       | some _ => false)
  | _ => false

/-- An addon descriptor is well formed for discovery: a dict whose
`manifest`, when present, is either a well-formed manifest dict or falsy
(a falsy manifest is skipped before any attribute access). -/
def wfAddon : JVal → Bool
  | .obj fs =>
      match lookupKey fs "manifest" with
      | none => true
      | some m =>
          match m with
          | .obj _ => wfManifest m
          | _ => !pyTruthy m
  | _ => false

end StremioCatalogService

namespace StremioAddonService

/-- Shape needed by the enable/disable/remove log line: a dict whose
`manifest`, when present, is a dict. -/
def wfAddonBasic : JVal → Bool
  | .obj fs =>
      match lookupKey fs "manifest" with
      | none => true
      | some (.obj _) => true
      | some _ => false
  | _ => false

end StremioAddonService

/-!
## Helper lemmas
-/

theorem lookupKey_setKey_self (fs : List (String × JVal)) (k : String) (v : JVal) :
    lookupKey (setKey fs k v) k = some v := by
  induction fs with
  | nil => simp [setKey, lookupKey]
  | cons hd tl ih =>
      obtain ⟨k', v'⟩ := hd
      by_cases h : k' = k
      · simp [setKey, lookupKey, h]
      · simp [setKey, lookupKey, h, ih]

theorem lookupKey_setKey_ne (fs : List (String × JVal)) (k k' : String) (v : JVal)
    (h : k' ≠ k) : lookupKey (setKey fs k v) k' = lookupKey fs k' := by
  induction fs with
  | nil => simp [setKey, lookupKey, Ne.symm h]
  | cons hd tl ih =>
      obtain ⟨k₀, v₀⟩ := hd
      simp only [setKey]
      by_cases h₀ : k₀ = k
      · subst h₀
        simp [lookupKey, Ne.symm h]
      · simp [lookupKey, h₀, ih]

namespace StremioAddonService

theorem logAddonName_ok (fs : List (String × JVal))
    (h : wfAddonBasic (.obj fs) = true) : logAddonName (.obj fs) = .ok () := by
  simp only [wfAddonBasic] at h
  simp only [logAddonName, pyGetD]
  cases hm : lookupKey fs "manifest" with
  | none => simp [hm]
  | some m =>
      rw [hm] at h
      cases m with
      | obj mfs => simp [pyGetD]
      | str s => simp at h
      | num n => simp at h
      | bool b => simp at h
      | null => simp at h
      | arr xs => simp at h

theorem wfAddonBasic_setKey (fs : List (String × JVal)) (v : JVal)
    (h : wfAddonBasic (.obj fs) = true) :
    wfAddonBasic (.obj (setKey fs "enabled" v)) = true := by
  simp only [wfAddonBasic] at h ⊢
  rw [lookupKey_setKey_ne fs "enabled" "manifest" v (by decide)]
  exact h

end StremioAddonService

/-- The enabled flag of the addon at position `n`. -/
def enabledAt (addons : List JVal) (n : Nat) : Option JVal :=
  match addons[n]? with
  | some (.obj fs) => lookupKey fs "enabled"
  | _ => none

/-!
## Claim theorems
-/

/-- C4.  For every well-formed collection `C` and index `i` with
`0 <= i < len(C)`, `enable_addon C i` returns a collection whose element
at `i` has `enabled == True`, and `disable_addon C i` one whose element
at `i` has `enabled == False`, both of unchanged length; for every
out-of-range `i` (negative or `>= len(C)`), both return `C` unchanged
rather than raising. -/
theorem enable_disable_addon_spec (C : List JVal) (i : Int)
    (hwf : C.all StremioAddonService.wfAddonBasic = true) :
    (0 ≤ i → i < (C.length : Int) →
       (∃ l, StremioAddonService.enable_addon C i = .ok l ∧
          enabledAt l i.toNat = some (.bool true) ∧ l.length = C.length) ∧
       (∃ l, StremioAddonService.disable_addon C i = .ok l ∧
          enabledAt l i.toNat = some (.bool false) ∧ l.length = C.length)) ∧
    (¬ (0 ≤ i ∧ i < (C.length : Int)) →
       StremioAddonService.enable_addon C i = .ok C ∧
       StremioAddonService.disable_addon C i = .ok C) := by
  constructor
  · intro h1 h2
    have hlt : i.toNat < C.length := by omega
    have hsome : C[i.toNat]? = some C[i.toNat] := List.getElem?_eq_getElem hlt
    have hwfa : StremioAddonService.wfAddonBasic C[i.toNat] = true :=
      List.all_eq_true.mp hwf _ (List.getElem_mem hlt)
    cases ha : C[i.toNat] with
    | obj fs =>
        rw [ha] at hsome hwfa
        have hmod : ∀ b : Bool,
            StremioAddonService.logAddonName
              (.obj (setKey fs "enabled" (.bool b))) = .ok () := fun b =>
          StremioAddonService.logAddonName_ok _
            (StremioAddonService.wfAddonBasic_setKey fs (.bool b) hwfa)
        constructor
        · refine ⟨C.set i.toNat (.obj (setKey fs "enabled" (.bool true))), ?_, ?_, ?_⟩
          · simp only [StremioAddonService.enable_addon, if_pos (And.intro h1 h2),
              hsome, hmod true]
          · simp only [enabledAt, List.getElem?_set_self hlt, lookupKey_setKey_self]
          · exact List.length_set ..
        · refine ⟨C.set i.toNat (.obj (setKey fs "enabled" (.bool false))), ?_, ?_, ?_⟩
          · simp only [StremioAddonService.disable_addon, if_pos (And.intro h1 h2),
              hsome, hmod false]
          · simp only [enabledAt, List.getElem?_set_self hlt, lookupKey_setKey_self]
          · exact List.length_set ..
    | str s => rw [ha] at hwfa; simp [StremioAddonService.wfAddonBasic] at hwfa
    | num n => rw [ha] at hwfa; simp [StremioAddonService.wfAddonBasic] at hwfa
    | bool b => rw [ha] at hwfa; simp [StremioAddonService.wfAddonBasic] at hwfa
    | null => rw [ha] at hwfa; simp [StremioAddonService.wfAddonBasic] at hwfa
    | arr xs => rw [ha] at hwfa; simp [StremioAddonService.wfAddonBasic] at hwfa
  · intro h
    constructor
    · simp only [StremioAddonService.enable_addon, if_neg h]
    · simp only [StremioAddonService.disable_addon, if_neg h]

/-- Witness for C4 on a concrete two-addon collection and index 1. -/
theorem enable_disable_addon_spec_witness :
    (∃ l, StremioAddonService.enable_addon
        [.obj [("manifest", .obj [("name", .str "A")]), ("enabled", .bool false)],
         .obj [("manifest", .obj [("name", .str "B")]), ("enabled", .bool false)]]
        1 = .ok l ∧ enabledAt l 1 = some (.bool true) ∧ l.length = 2) ∧
    StremioAddonService.enable_addon
        [.obj [("manifest", .obj [("name", .str "A")]), ("enabled", .bool false)],
         .obj [("manifest", .obj [("name", .str "B")]), ("enabled", .bool false)]]
        2 = .ok
        [.obj [("manifest", .obj [("name", .str "A")]), ("enabled", .bool false)],
         .obj [("manifest", .obj [("name", .str "B")]), ("enabled", .bool false)]] := by
  have h := enable_disable_addon_spec
    [.obj [("manifest", .obj [("name", .str "A")]), ("enabled", .bool false)],
     .obj [("manifest", .obj [("name", .str "B")]), ("enabled", .bool false)]]
    1 (by decide)
  have h2 := enable_disable_addon_spec
    [.obj [("manifest", .obj [("name", .str "A")]), ("enabled", .bool false)],
     .obj [("manifest", .obj [("name", .str "B")]), ("enabled", .bool false)]]
    2 (by decide)
  exact ⟨((h.1 (by decide) (by decide)).1), (h2.2 (by decide)).1⟩

/-- C3.  For every well-formed collection `C` and index `i` with
`0 <= i < len(C)`, `remove_addon C i` yields the collection with the
element at `i` removed — all other elements kept in their original
relative order (`take i ++ drop (i+1)`) — of length `len(C) - 1`; for
out-of-range `i` it returns `C` unchanged. -/
theorem remove_addon_spec (C : List JVal) (i : Int)
    (hwf : C.all StremioAddonService.wfAddonBasic = true) :
    (0 ≤ i → i < (C.length : Int) →
       StremioAddonService.remove_addon C i =
         .ok (C.take i.toNat ++ C.drop (i.toNat + 1)) ∧
       (C.take i.toNat ++ C.drop (i.toNat + 1)).length = C.length - 1) ∧
    (¬ (0 ≤ i ∧ i < (C.length : Int)) →
       StremioAddonService.remove_addon C i = .ok C) := by
  constructor
  · intro h1 h2
    have hlt : i.toNat < C.length := by omega
    have hsome : C[i.toNat]? = some C[i.toNat] := List.getElem?_eq_getElem hlt
    have hwfa : StremioAddonService.wfAddonBasic C[i.toNat] = true :=
      List.all_eq_true.mp hwf _ (List.getElem_mem hlt)
    constructor
    · cases ha : C[i.toNat] with
      | obj fs =>
          rw [ha] at hsome hwfa
          simp only [StremioAddonService.remove_addon, if_pos (And.intro h1 h2),
            hsome, StremioAddonService.logAddonName_ok fs hwfa]
      | str s => rw [ha] at hwfa; simp [StremioAddonService.wfAddonBasic] at hwfa
      | num n => rw [ha] at hwfa; simp [StremioAddonService.wfAddonBasic] at hwfa
      | bool b => rw [ha] at hwfa; simp [StremioAddonService.wfAddonBasic] at hwfa
      | null => rw [ha] at hwfa; simp [StremioAddonService.wfAddonBasic] at hwfa
      | arr xs => rw [ha] at hwfa; simp [StremioAddonService.wfAddonBasic] at hwfa
    · have ht : (C.take i.toNat).length = i.toNat := by
        simp [Nat.le_of_lt hlt]
      have hd : (C.drop (i.toNat + 1)).length = C.length - (i.toNat + 1) := by simp
      rw [List.length_append, ht, hd]
      omega
  · intro h
    simp only [StremioAddonService.remove_addon, if_neg h]

/-- Witness for C3: removing index 0 of a two-element collection, and the
out-of-range no-op at index -1. -/
theorem remove_addon_spec_witness :
    StremioAddonService.remove_addon
        [.obj [("manifest", .obj [("name", .str "A")])],
         .obj [("manifest", .obj [("name", .str "B")])]] 0 =
      .ok [.obj [("manifest", .obj [("name", .str "B")])]] ∧
    StremioAddonService.remove_addon
        [.obj [("manifest", .obj [("name", .str "A")])],
         .obj [("manifest", .obj [("name", .str "B")])]] (-1) =
      .ok [.obj [("manifest", .obj [("name", .str "A")])],
           .obj [("manifest", .obj [("name", .str "B")])]] := by
  have h := remove_addon_spec
    [.obj [("manifest", .obj [("name", .str "A")])],
     .obj [("manifest", .obj [("name", .str "B")])]] 0 (by decide)
  have h2 := remove_addon_spec
    [.obj [("manifest", .obj [("name", .str "A")])],
     .obj [("manifest", .obj [("name", .str "B")])]] (-1) (by decide)
  exact ⟨(h.1 (by decide) (by decide)).1, h2.2 (by decide)⟩

theorem lookupKey_any_eq (fs : List (String × JVal)) (k : String) :
    (fs.any fun kv => kv.1 = k) = (lookupKey fs k).isSome := by
  induction fs with
  | nil => simp [lookupKey]
  | cons hd tl ih =>
      obtain ⟨k₀, v₀⟩ := hd
      by_cases h : k₀ = k
      · simp [lookupKey, h]
      · simp [lookupKey, h, ih]

/-- Shape of an `authKey` login-result field that `set_string` accepts:
absent or a string. -/
def keyBenign (fs : List (String × JVal)) : Bool :=
  match lookupKey fs "authKey" with
  | none => true
  | some (.str _) => true
  | some _ => false

/-- Shape of a `user` login-result value that `save_user_data` and the
subsequent log line accept: a dict whose `email` and `_id`, where
present, are strings. -/
def wfUserVal : JVal → Bool
  | .obj uf =>
      (match lookupKey uf "email" with
       | none => true
       | some (.str _) => true
       | some _ => false) &&
      (match lookupKey uf "_id" with
       | none => true
       | some (.str _) => true
       | some _ => false)
  | _ => false

/-- Shape of a `user` login-result field the success path accepts: absent
or well formed. -/
def userBenign (fs : List (String × JVal)) : Bool :=
  match lookupKey fs "user" with
  | none => true
  | some u => wfUserVal u

/-- C5.  Whenever the remote login call fails — timeout, connection
error, non-200 status, invalid or non-dict JSON, a returned `error`
payload, or a response without a `result` field — `login` raises and the
stored credentials are exactly what they were before the call. -/
theorem login_failure_preserves_credentials (o : RequestOutcome) (s : Schema)
    (h : ∃ e, requestResult o = .error e) :
    ∃ e, StremioAuthService.login o s = (.error e, s) := by
  obtain ⟨e, he⟩ := h
  exact ⟨e, by simp only [StremioAuthService.login, he]⟩

/-- Witness for C5: the spec scenario — the remote answers
`{"error": "Invalid credentials."}` with status 200 — leaves the
previously stored credentials untouched. -/
theorem login_failure_preserves_credentials_witness :
    ∃ e, StremioAuthService.login
        (.resp 200 (some (.obj [("error", .str "Invalid credentials.")])))
        ⟨"oldkey", "old@example.com", "oldid"⟩ =
      (.error e, ⟨"oldkey", "old@example.com", "oldid"⟩) :=
  login_failure_preserves_credentials _ _ ⟨"Invalid credentials.", by decide⟩

/-- C6.  `logout` never raises: whatever the remote invalidation call
does (success, timeout, connection error, server or protocol error, or
no call at all when no key is held), it returns normally with all three
stored credentials cleared, and `is_logged_in()` is false afterwards. -/
theorem logout_always_clears (ak : String) (o : RequestOutcome) (s : Schema) :
    StremioAuthService.logout ak o s = ⟨"", "", ""⟩ ∧
    StremioCredentials.is_logged_in (StremioAuthService.logout ak o s) = false := by
  exact ⟨rfl, rfl⟩

/-- C7.  With no stored session key, `get_addon_collection` raises the
not-authenticated error, while `get_catalogs_for_type` returns the empty
sequence without raising, for every content type and remote outcome. -/
theorem not_logged_in_behavior (s : Schema) (o oc : RequestOutcome) (ct : String)
    (h : s.authKey = "") :
    StremioAddonService.get_addon_collection s.authKey o =
      .error "User must be logged in to fetch addons" ∧
    StremioCatalogService.get_catalogs_for_type s oc ct = [] := by
  have hlog : StremioCredentials.is_logged_in s = false := by
    simp [StremioCredentials.is_logged_in, h]
  constructor
  · simp [StremioAddonService.get_addon_collection, h]
  · simp [StremioCatalogService.get_catalogs_for_type, hlog]

/-- Witness for C7 on the empty-key store with a timeout outcome and
content type `movie`. -/
theorem not_logged_in_behavior_witness :
    StremioAddonService.get_addon_collection (Schema.mk "" "a@b.c" "u1").authKey .timeout =
      .error "User must be logged in to fetch addons" ∧
    StremioCatalogService.get_catalogs_for_type ⟨"", "a@b.c", "u1"⟩ .timeout "movie" = [] :=
  not_logged_in_behavior ⟨"", "a@b.c", "u1"⟩ .timeout .timeout "movie" rfl

/-- C9.  When the remote login endpoint answers with a success envelope
carrying a non-empty session key string and a non-empty user object,
`login` succeeds, `is_logged_in()` is true afterwards, and
`get_stored_email()` returns the email carried in the response's user
object. -/
theorem login_success_stores_credentials (o : RequestOutcome) (s : Schema)
    (fs uf : List (String × JVal)) (k em uid : String)
    (ho : requestResult o = .ok (.obj fs))
    (hk : lookupKey fs "authKey" = some (.str k))
    (hkne : 0 < k.length)
    (hu : lookupKey fs "user" = some (.obj uf))
    (hune : uf.isEmpty = false)
    (hem : (lookupKey uf "email").getD (.str "") = .str em)
    (hid : (lookupKey uf "_id").getD (.str "") = .str uid) :
    StremioAuthService.login o s = (.ok (.obj fs), ⟨k, em, uid⟩) ∧
    StremioCredentials.is_logged_in ⟨k, em, uid⟩ = true ∧
    StremioAuthService.get_stored_email ⟨k, em, uid⟩ = em := by
  have hanyk : (fs.any fun kv => kv.1 = "authKey") = true := by
    rw [lookupKey_any_eq, hk]; rfl
  have hanyu : (fs.any fun kv => kv.1 = "user") = true := by
    rw [lookupKey_any_eq, hu]; rfl
  refine ⟨?_, ?_, rfl⟩
  · simp only [StremioAuthService.login, ho, pyInS, hanyk, pySubscript, hk,
      StremioAuthService.loginUserStep, hanyu, hu,
      StremioCredentials.save_user_data, pyTruthy, hune, Bool.not_false,
      if_true, hem, hid]
  · simp only [StremioCredentials.is_logged_in]
    exact decide_eq_true hkne

/-- Witness for C9 with a concrete success envelope. -/
theorem login_success_stores_credentials_witness :
    StremioAuthService.login
        (.resp 200 (some (.obj [("result", .obj
          [("authKey", .str "K1"),
           ("user", .obj [("email", .str "a@b.c"), ("_id", .str "u1")])])])))
        ⟨"", "", ""⟩ =
      (.ok (.obj [("authKey", .str "K1"),
          ("user", .obj [("email", .str "a@b.c"), ("_id", .str "u1")])]),
       ⟨"K1", "a@b.c", "u1"⟩) ∧
    StremioCredentials.is_logged_in ⟨"K1", "a@b.c", "u1"⟩ = true ∧
    StremioAuthService.get_stored_email ⟨"K1", "a@b.c", "u1"⟩ = "a@b.c" :=
  login_success_stores_credentials
    (.resp 200 (some (.obj [("result", .obj
      [("authKey", .str "K1"),
       ("user", .obj [("email", .str "a@b.c"), ("_id", .str "u1")])])])))
    ⟨"", "", ""⟩
    [("authKey", .str "K1"),
     ("user", .obj [("email", .str "a@b.c"), ("_id", .str "u1")])]
    [("email", .str "a@b.c"), ("_id", .str "u1")]
    "K1" "a@b.c" "u1"
    (by decide) (by decide) (by decide) (by decide) (by decide) (by decide)
    (by decide)

theorem loginUserStep_benign (fs : List (String × JVal)) (s : Schema)
    (hb : userBenign fs = true) :
    (∃ s', StremioAuthService.loginUserStep (.obj fs) s = (.ok (.obj fs), s') ∧
       s'.authKey = s.authKey) ∧
    ((lookupKey fs "user" = none ∨ lookupKey fs "user" = some (.obj [])) →
       StremioAuthService.loginUserStep (.obj fs) s = (.ok (.obj fs), s)) := by
  simp only [userBenign] at hb
  cases hu : lookupKey fs "user" with
  | none =>
      have hany : (fs.any fun kv => kv.1 = "user") = false := by
        rw [lookupKey_any_eq, hu]; rfl
      constructor
      · exact ⟨s, by simp only [StremioAuthService.loginUserStep, pyInS, hany], rfl⟩
      · intro _
        simp only [StremioAuthService.loginUserStep, pyInS, hany]
  | some u =>
      rw [hu] at hb
      have hany : (fs.any fun kv => kv.1 = "user") = true := by
        rw [lookupKey_any_eq, hu]; rfl
      cases u with
      | obj uf =>
          simp only [wfUserVal, Bool.and_eq_true] at hb
          obtain ⟨hbe, hbi⟩ := hb
          have hem : ∃ em : String, (lookupKey uf "email").getD (.str "") = .str em := by
            cases he : lookupKey uf "email" with
            | none => exact ⟨"", by simp [he]⟩
            | some v =>
                rw [he] at hbe
                cases v with
                | str e => exact ⟨e, by simp [he]⟩
                | num n => simp at hbe
                | bool b => simp at hbe
                | null => simp at hbe
                | arr xs => simp at hbe
                | obj fs2 => simp at hbe
          have hid : ∃ uid : String, (lookupKey uf "_id").getD (.str "") = .str uid := by
            cases hi : lookupKey uf "_id" with
            | none => exact ⟨"", by simp [hi]⟩
            | some v =>
                rw [hi] at hbi
                cases v with
                | str e => exact ⟨e, by simp [hi]⟩
                | num n => simp at hbi
                | bool b => simp at hbi
                | null => simp at hbi
                | arr xs => simp at hbi
                | obj fs2 => simp at hbi
          obtain ⟨em, hem⟩ := hem
          obtain ⟨uid, hid⟩ := hid
          constructor
          · by_cases hemp : uf.isEmpty = true
            · refine ⟨s, ?_, rfl⟩
              simp [StremioAuthService.loginUserStep, pyInS, hany,
                pySubscript, hu, StremioCredentials.save_user_data, pyTruthy,
                hemp]
            · refine ⟨⟨s.authKey, em, uid⟩, ?_, rfl⟩
              simp [StremioAuthService.loginUserStep, pyInS, hany,
                pySubscript, hu, StremioCredentials.save_user_data, pyTruthy,
                eq_false_of_ne_true hemp, hem, hid]
          · intro hcase
            rcases hcase with hnone | hempty
            · exact Option.noConfusion hnone
            · injection hempty with h1
              injection h1 with h2
              subst h2
              simp [StremioAuthService.loginUserStep, pyInS, hany,
                pySubscript, hu, StremioCredentials.save_user_data, pyTruthy]
      | str v => simp [wfUserVal] at hb
      | num v => simp [wfUserVal] at hb
      | bool v => simp [wfUserVal] at hb
      | null => simp [wfUserVal] at hb
      | arr v => simp [wfUserVal] at hb

/-- C10.  A login the remote accepts can complete without storing
anything: (i) a success result without an `authKey` field returns
normally and leaves the stored auth key unchanged; (ii) a success result
without a `user` field (or with an empty user object) returns normally
and leaves the stored email and user id unchanged; (iii) with both
absent, the store is untouched entirely, so from a logged-out state
`is_logged_in()` is still false after the accepted login. -/
theorem login_missing_fields_frame (s : Schema) :
    (∀ (o : RequestOutcome) (fs : List (String × JVal)),
       requestResult o = .ok (.obj fs) →
       lookupKey fs "authKey" = none →
       userBenign fs = true →
       ∃ r s', StremioAuthService.login o s = (.ok r, s') ∧
         s'.authKey = s.authKey) ∧
    (∀ (o : RequestOutcome) (fs : List (String × JVal)),
       requestResult o = .ok (.obj fs) →
       keyBenign fs = true →
       (lookupKey fs "user" = none ∨ lookupKey fs "user" = some (.obj [])) →
       ∃ r s', StremioAuthService.login o s = (.ok r, s') ∧
         s'.userEmail = s.userEmail ∧ s'.userId = s.userId) ∧
    (∀ (o : RequestOutcome) (fs : List (String × JVal)),
       requestResult o = .ok (.obj fs) →
       lookupKey fs "authKey" = none → lookupKey fs "user" = none →
       StremioAuthService.login o s = (.ok (.obj fs), s) ∧
       (s.authKey = "" →
          StremioCredentials.is_logged_in (StremioAuthService.login o s).2 = false)) := by
  refine ⟨?_, ?_, ?_⟩
  · intro o fs ho hk hb
    have hanyk : (fs.any fun kv => kv.1 = "authKey") = false := by
      rw [lookupKey_any_eq, hk]; rfl
    obtain ⟨s', hstep, hak⟩ := (loginUserStep_benign fs s hb).1
    refine ⟨.obj fs, s', ?_, hak⟩
    simp only [StremioAuthService.login, ho, pyInS, hanyk]
    exact hstep
  · intro o fs ho hkb hu
    have hb : userBenign fs = true := by
      rcases hu with hu | hu <;> simp [userBenign, hu, wfUserVal, lookupKey]
    cases hk : lookupKey fs "authKey" with
    | none =>
        have hanyk : (fs.any fun kv => kv.1 = "authKey") = false := by
          rw [lookupKey_any_eq, hk]; rfl
        have hstep := (loginUserStep_benign fs s hb).2 hu
        refine ⟨.obj fs, s, ?_, rfl, rfl⟩
        simp only [StremioAuthService.login, ho, pyInS, hanyk]
        exact hstep
    | some k =>
        have hanyk : (fs.any fun kv => kv.1 = "authKey") = true := by
          rw [lookupKey_any_eq, hk]; rfl
        simp only [keyBenign, hk] at hkb
        cases k with
        | str ks =>
            have hstep := (loginUserStep_benign fs ⟨ks, s.userEmail, s.userId⟩ hb).2 hu
            refine ⟨.obj fs, ⟨ks, s.userEmail, s.userId⟩, ?_, rfl, rfl⟩
            simp only [StremioAuthService.login, ho, pyInS, hanyk, pySubscript, hk]
            exact hstep
        | num n => simp at hkb
        | bool b => simp at hkb
        | null => simp at hkb
        | arr xs => simp at hkb
        | obj fs2 => simp at hkb
  · intro o fs ho hk hu
    have hb : userBenign fs = true := by simp [userBenign, hu]
    have hanyk : (fs.any fun kv => kv.1 = "authKey") = false := by
      rw [lookupKey_any_eq, hk]; rfl
    have hstep := (loginUserStep_benign fs s hb).2 (Or.inl hu)
    have hlogin : StremioAuthService.login o s = (.ok (.obj fs), s) := by
      simp only [StremioAuthService.login, ho, pyInS, hanyk]
      exact hstep
    refine ⟨hlogin, ?_⟩
    intro hkey
    rw [hlogin]
    simp [StremioCredentials.is_logged_in, hkey]

/-- Witness for C10: a success envelope whose result is the empty object,
against a logged-out store. -/
theorem login_missing_fields_frame_witness :
    StremioAuthService.login (.resp 200 (some (.obj [("result", .obj [])])))
      ⟨"", "e@x.y", "old"⟩ = (.ok (.obj []), ⟨"", "e@x.y", "old"⟩) ∧
    StremioCredentials.is_logged_in
      (StremioAuthService.login (.resp 200 (some (.obj [("result", .obj [])])))
        ⟨"", "e@x.y", "old"⟩).2 = false := by
  have h := (login_missing_fields_frame ⟨"", "e@x.y", "old"⟩).2.2
    (.resp 200 (some (.obj [("result", .obj [])]))) []
    (by decide) (by decide) (by decide)
  exact ⟨h.1, h.2 rfl⟩

/-- C8, counterexample to the claim's URL formula.  For the transport URL
`http://x/` the code first strips the trailing slash (`rstrip('/')`), so
it requests `http://x/catalog/movie/top.json`, not the
`http://x//catalog/movie/top.json` the claim's formula produces: a server
answering only at the claim's URL yields an empty result. -/
theorem catalog_url_claim_counterexample :
    StremioCatalogService.claim_catalog_url "http://x/" "movie" "top" 0 ≠
      StremioCatalogService.build_catalog_url "http://x/" "movie" "top" 0 ∧
    StremioCatalogService.fetch_catalog_content
      (fun u => if u = "http://x//catalog/movie/top.json"
        then .resp 200 (some (.obj [("metas", .arr [.obj [("id", .str "m0")]])]))
        else .resp 404 none)
      ⟨.str "A", .str "a1", .str "top", .str "Top", .str "movie",
        .str "http://x/", .arr []⟩ 0 = .arr [] ∧
    (fun u => if u = "http://x//catalog/movie/top.json"
        then RequestOutcome.resp 200
          (some (.obj [("metas", .arr [.obj [("id", .str "m0")]])]))
        else RequestOutcome.resp 404 none)
      (StremioCatalogService.claim_catalog_url "http://x/" "movie" "top" 0) =
      .resp 200 (some (.obj [("metas", .arr [.obj [("id", .str "m0")]])])) := by
  exact ⟨by decide, by decide, by decide⟩

/-- C8, amended.  For a descriptor with string transport URL, the result
of `fetch_catalog_content` depends only on the response at
`build_catalog_url` (trailing slashes stripped, then a trailing
`/manifest.json`, then `/catalog/{type}/{id}[/skip={skip}].json` with the
skip segment exactly when `skip > 0`); it never raises, returns `[]` on
any non-200 response, timeout or connection error, and on a 200 JSON
object body returns the `metas` list (`[]` when the field is absent). -/
theorem fetch_catalog_content_amended (net : String → RequestOutcome)
    (d : CatalogDesc) (skip : Int) (turl : String)
    (hd : d.transport_url = .str turl) :
    (∀ net' : String → RequestOutcome,
       net' (StremioCatalogService.build_catalog_url turl
           (pyStr d.catalog_type) (pyStr d.catalog_id) skip) =
         net (StremioCatalogService.build_catalog_url turl
           (pyStr d.catalog_type) (pyStr d.catalog_id) skip) →
       StremioCatalogService.fetch_catalog_content net' d skip =
         StremioCatalogService.fetch_catalog_content net d skip) ∧
    (∀ (st : Nat) (body : Option JVal), st ≠ 200 →
       net (StremioCatalogService.build_catalog_url turl
           (pyStr d.catalog_type) (pyStr d.catalog_id) skip) = .resp st body →
       StremioCatalogService.fetch_catalog_content net d skip = .arr []) ∧
    (net (StremioCatalogService.build_catalog_url turl
         (pyStr d.catalog_type) (pyStr d.catalog_id) skip) = .timeout ∨
     net (StremioCatalogService.build_catalog_url turl
         (pyStr d.catalog_type) (pyStr d.catalog_id) skip) = .connError →
       StremioCatalogService.fetch_catalog_content net d skip = .arr []) ∧
    (∀ fs : List (String × JVal),
       net (StremioCatalogService.build_catalog_url turl
           (pyStr d.catalog_type) (pyStr d.catalog_id) skip) =
         .resp 200 (some (.obj fs)) →
       (lookupKey fs "metas" = none →
          StremioCatalogService.fetch_catalog_content net d skip = .arr []) ∧
       (∀ l : List JVal, lookupKey fs "metas" = some (.arr l) →
          StremioCatalogService.fetch_catalog_content net d skip = .arr l)) := by
  refine ⟨?_, ?_, ?_, ?_⟩
  · intro net' hagree
    simp only [StremioCatalogService.fetch_catalog_content, hd, hagree]
  · intro st body hst hnet
    simp only [StremioCatalogService.fetch_catalog_content, hd, hnet, if_pos hst]
  · intro hcase
    rcases hcase with hnet | hnet <;>
      simp only [StremioCatalogService.fetch_catalog_content, hd, hnet]
  · intro fs hnet
    constructor
    · intro hm
      simp [StremioCatalogService.fetch_catalog_content, hd, hnet, hm, pyLen]
    · intro l hm
      simp [StremioCatalogService.fetch_catalog_content, hd, hnet, hm, pyLen]

/-- Witness for C8 on a concrete 200 response carrying one meta item. -/
theorem fetch_catalog_content_amended_witness :
    StremioCatalogService.fetch_catalog_content
      (fun _ => .resp 200 (some (.obj [("metas", .arr [.obj [("id", .str "w8")]])])))
      ⟨.str "A", .str "a1", .str "c1", .str "C", .str "movie",
        .str "http://h", .arr []⟩ 0 = .arr [.obj [("id", .str "w8")]] :=
  ((fetch_catalog_content_amended
      (fun _ => .resp 200 (some (.obj [("metas", .arr [.obj [("id", .str "w8")]])])))
      ⟨.str "A", .str "a1", .str "c1", .str "C", .str "movie",
        .str "http://h", .arr []⟩ 0 "http://h" rfl).2.2.2
    [("metas", .arr [.obj [("id", .str "w8")]])] rfl).2
    [.obj [("id", .str "w8")]] rfl

namespace StremioCatalogService

theorem scanResources_wf (ct : String) (mtypes : JVal) (rl : List JVal)
    (h : rl.all (wfRes mtypes) = true) :
    scanResources ct mtypes rl = .ok (rl.any (resQual ct mtypes)) := by
  induction rl with
  | nil => rfl
  | cons r rest ih =>
      rw [List.all_cons, Bool.and_eq_true] at h
      obtain ⟨hr, hrest⟩ := h
      cases r with
      | str s =>
          by_cases hs : s = "catalog"
          · simp [scanResources, resQual, hs]
          · simp [scanResources, resQual, hs, ih hrest]
      | obj fs =>
          by_cases hname : (lookupKey fs "name").getD .null = .str "catalog"
          · simp only [wfRes] at hr
            cases ht : (lookupKey fs "types").getD mtypes with
            | arr ts =>
                by_cases hmem : JVal.str ct ∈ ts
                · simp [scanResources, resQual, hname, ht, pyInS, hmem]
                · simp [scanResources, resQual, hname, ht, pyInS, hmem, ih hrest]
            | str v => rw [ht] at hr; simp [isArrJ] at hr
            | num v => rw [ht] at hr; simp [isArrJ] at hr
            | bool v => rw [ht] at hr; simp [isArrJ] at hr
            | null => rw [ht] at hr; simp [isArrJ] at hr
            | obj v => rw [ht] at hr; simp [isArrJ] at hr
          · simp [scanResources, resQual, hname, ih hrest]
      | num v => simp [scanResources, resQual, ih hrest]
      | bool v => simp [scanResources, resQual, ih hrest]
      | null => simp [scanResources, resQual, ih hrest]
      | arr v => simp [scanResources, resQual, ih hrest]

theorem buildDescs_wf (ct : String) (manifest turl : JVal) (cl : List JVal)
    (h : cl.all isObjJ = true) :
    buildDescs ct manifest turl cl =
      .ok (cl.filterMap fun c =>
        if jLookupD c "type" .null = .str ct then some (mkDesc manifest turl c)
        else none) := by
  induction cl with
  | nil => rfl
  | cons c cs ih =>
      rw [List.all_cons, Bool.and_eq_true] at h
      obtain ⟨hc, hcs⟩ := h
      cases c with
      | obj fs =>
          by_cases hty : (lookupKey fs "type").getD .null = .str ct
          · simp [buildDescs, pyGetD, hty, ih hcs, jLookupD]
          · simp [buildDescs, pyGetD, hty, ih hcs, jLookupD]
      | str v => simp [isObjJ] at hc
      | num v => simp [isObjJ] at hc
      | bool v => simp [isObjJ] at hc
      | null => simp [isObjJ] at hc
      | arr v => simp [isObjJ] at hc

theorem catalogs_of_addons_wf (ct : String) (addons : List JVal)
    (h : addons.all wfAddon = true) :
    catalogs_of_addons ct addons = .ok (claim_catalogs_for_type ct addons) := by
  induction addons with
  | nil => rfl
  | cons a rest ih =>
      rw [List.all_cons, Bool.and_eq_true] at h
      obtain ⟨ha, hrest⟩ := h
      have ihr := ih hrest
      have hclaim : claim_catalogs_for_type ct (a :: rest) =
          claimSection ct a ++ claim_catalogs_for_type ct rest := by
        simp [claim_catalogs_for_type]
      rw [hclaim]
      cases a with
      | obj fs =>
          cases hen : pyTruthy ((lookupKey fs "enabled").getD (.bool true)) with
          | false =>
              have hcs : claimSection ct (.obj fs) = [] := by
                simp [claimSection, jLookupD, hen]
              simp [catalogs_of_addons, pyGetD, hen, hcs, ihr]
          | true =>
              cases hmf : pyTruthy ((lookupKey fs "manifest").getD (.obj [])) with
              | false =>
                  have hcs : claimSection ct (.obj fs) = [] := by
                    simp [claimSection, jLookupD, hmf]
                  simp [catalogs_of_addons, pyGetD, hen, hmf, hcs, ihr]
              | true =>
                  cases htl : pyTruthy ((lookupKey fs "transportUrl").getD (.str "")) with
                  | false =>
                      have hcs : claimSection ct (.obj fs) = [] := by
                        simp [claimSection, jLookupD, htl]
                      simp [catalogs_of_addons, pyGetD, hen, hmf, htl, hcs, ihr]
                  | true =>
                      have hkey : ∃ mfs,
                          (lookupKey fs "manifest").getD (.obj []) = .obj mfs ∧
                          wfManifest (.obj mfs) = true := by
                        cases hl : lookupKey fs "manifest" with
                        | none =>
                            rw [hl] at hmf
                            simp [pyTruthy] at hmf
                        | some mm =>
                            rw [hl] at hmf
                            simp only [wfAddon, hl] at ha
                            simp only [Option.getD_some] at hmf
                            cases mm with
                            | obj mfs => exact ⟨mfs, by simp [hl], ha⟩
                            | str v => simp [hmf] at ha
                            | num v => simp [hmf] at ha
                            | bool v => simp [hmf] at ha
                            | null => simp [hmf] at ha
                            | arr v => simp [hmf] at ha
                      obtain ⟨mfs, hmm, hwfm⟩ := hkey
                      simp only [wfManifest, Bool.and_eq_true] at hwfm
                      obtain ⟨⟨hty, hres⟩, hcat⟩ := hwfm
                      have hresources : ∃ rl,
                          (lookupKey mfs "resources").getD (.arr []) = .arr rl ∧
                          rl.all (wfRes ((lookupKey mfs "types").getD (.arr []))) = true := by
                        cases hlr : lookupKey mfs "resources" with
                        | none => exact ⟨[], by simp [hlr], rfl⟩
                        | some rv =>
                            rw [hlr] at hres
                            cases rv with
                            | arr rl => exact ⟨rl, by simp [hlr], by simpa using hres⟩
                            | str v => simp at hres
                            | num v => simp at hres
                            | bool v => simp at hres
                            | null => simp at hres
                            | obj v => simp at hres
                      have hcatalogs : ∃ cl,
                          (lookupKey mfs "catalogs").getD (.arr []) = .arr cl ∧
                          cl.all isObjJ = true := by
                        cases hlc : lookupKey mfs "catalogs" with
                        | none => exact ⟨[], by simp [hlc], rfl⟩
                        | some cv =>
                            rw [hlc] at hcat
                            cases cv with
                            | arr cl => exact ⟨cl, by simp [hlc], by simpa using hcat⟩
                            | str v => simp at hcat
                            | num v => simp at hcat
                            | bool v => simp at hcat
                            | null => simp at hcat
                            | obj v => simp at hcat
                      obtain ⟨rl, hrl, hrlwf⟩ := hresources
                      obtain ⟨cl, hcl, hclwf⟩ := hcatalogs
                      have hscan := scanResources_wf ct
                        ((lookupKey mfs "types").getD (.arr [])) rl hrlwf
                      have hqual : addonQualifies ct (.obj mfs) =
                          rl.any (resQual ct ((lookupKey mfs "types").getD (.arr []))) := by
                        simp [addonQualifies, jLookupD, hrl]
                      have hbuild := buildDescs_wf ct (.obj mfs)
                        ((lookupKey fs "transportUrl").getD (.str "")) cl hclwf
                      cases hq : rl.any (resQual ct ((lookupKey mfs "types").getD (.arr []))) with
                      | false =>
                          have hcs : claimSection ct (.obj fs) = [] := by
                            simp [claimSection, jLookupD, hmm, hqual, hq]
                          simp [catalogs_of_addons, pyGetD, hen, hmf, htl, hmm,
                            hrl, pyIter, hscan, hq, hcs, ihr]
                      | true =>
                          have hmf' : pyTruthy (JVal.obj mfs) = true := by
                            rw [hmm] at hmf; exact hmf
                          have hcs : claimSection ct (.obj fs) =
                              cl.filterMap (fun c =>
                                if jLookupD c "type" .null = .str ct
                                then some (mkDesc (.obj mfs)
                                  ((lookupKey fs "transportUrl").getD (.str "")) c)
                                else none) := by
                            simp [claimSection, jLookupD, hmm, hqual, hq, hen,
                              hmf', htl, catalogEntries, hcl]
                          simp [catalogs_of_addons, pyGetD, hen, hmf, hmf', htl,
                            hmm, hrl, pyIter, hscan, hq, hcl, hbuild, hcs, ihr]
      | str v => simp [wfAddon] at ha
      | num v => simp [wfAddon] at ha
      | bool v => simp [wfAddon] at ha
      | null => simp [wfAddon] at ha
      | arr v => simp [wfAddon] at ha

end StremioCatalogService

/-- C1, counterexample to the claim as stated.  First conjunct: an
enabled addon with an empty `transportUrl` whose manifest qualifies
(resources contain the literal `"catalog"`) and has a catalog entry of
type `movie` contributes no descriptor — the code also skips addons with
a falsy manifest or transport URL, which the claim's "exactly when the
addon qualifies" omits.  Second conjunct: with addon A disabled and an
enabled addon sharing A's manifest id `"dup"`, the returned descriptors
do carry `addon_id = "dup"`, contradicting "no returned descriptor has
addon_id equal to A's manifest id". -/
theorem get_catalogs_for_type_claim_counterexample :
    (StremioCatalogService.get_catalogs_for_type ⟨"k", "", ""⟩
        (.resp 200 (some (.obj [("result", .obj [("addons", .arr [
          .obj [("manifest", .obj [
              ("id", .str "a1"), ("name", .str "A"),
              ("resources", .arr [.str "catalog"]),
              ("catalogs", .arr [.obj [("type", .str "movie"),
                ("id", .str "top"), ("name", .str "Top")]])]),
            ("transportUrl", .str "")]])])])))
        "movie" = [] ∧
     StremioCatalogService.addonQualifies "movie" (.obj [
        ("id", .str "a1"), ("name", .str "A"),
        ("resources", .arr [.str "catalog"]),
        ("catalogs", .arr [.obj [("type", .str "movie"),
          ("id", .str "top"), ("name", .str "Top")]])]) = true ∧
     StremioCatalogService.catalogEntries (.obj [
        ("id", .str "a1"), ("name", .str "A"),
        ("resources", .arr [.str "catalog"]),
        ("catalogs", .arr [.obj [("type", .str "movie"),
          ("id", .str "top"), ("name", .str "Top")]])]) =
       [.obj [("type", .str "movie"), ("id", .str "top"), ("name", .str "Top")]] ∧
     jLookupD (.obj [("type", .str "movie"), ("id", .str "top"),
        ("name", .str "Top")]) "type" .null = .str "movie" ∧
     jLookupD (.obj [("manifest", .obj [
          ("id", .str "a1"), ("name", .str "A"),
          ("resources", .arr [.str "catalog"]),
          ("catalogs", .arr [.obj [("type", .str "movie"),
            ("id", .str "top"), ("name", .str "Top")]])]),
        ("transportUrl", .str "")]) "enabled" (.bool true) = .bool true) ∧
    ((StremioCatalogService.get_catalogs_for_type ⟨"k", "", ""⟩
        (.resp 200 (some (.obj [("result", .obj [("addons", .arr [
          .obj [("enabled", .bool false),
            ("manifest", .obj [("id", .str "dup"),
              ("resources", .arr [.str "catalog"]),
              ("catalogs", .arr [.obj [("type", .str "movie"),
                ("id", .str "d0"), ("name", .str "D")]])]),
            ("transportUrl", .str "http://d")],
          .obj [("manifest", .obj [("id", .str "dup"), ("name", .str "B"),
              ("resources", .arr [.str "catalog"]),
              ("catalogs", .arr [.obj [("type", .str "movie"),
                ("id", .str "b0"), ("name", .str "B0")]])]),
            ("transportUrl", .str "http://b")]])])])))
        "movie").map CatalogDesc.addon_id = [.str "dup"] ∧
     jLookupD (.obj [("enabled", .bool false),
        ("manifest", .obj [("id", .str "dup"),
          ("resources", .arr [.str "catalog"]),
          ("catalogs", .arr [.obj [("type", .str "movie"),
            ("id", .str "d0"), ("name", .str "D")]])]),
        ("transportUrl", .str "http://d")]) "enabled" (.bool true) = .bool false ∧
     jLookupD (jLookupD (.obj [("enabled", .bool false),
        ("manifest", .obj [("id", .str "dup"),
          ("resources", .arr [.str "catalog"]),
          ("catalogs", .arr [.obj [("type", .str "movie"),
            ("id", .str "d0"), ("name", .str "D")]])]),
        ("transportUrl", .str "http://d")]) "manifest" (.obj []))
       "id" (.str "") = .str "dup") := by
  exact ⟨⟨by decide, by decide, by decide, by decide, by decide⟩,
    by decide, by decide, by decide⟩

/-- C1, amended.  When logged in and the fetched collection is a
well-formed addon collection, `get_catalogs_for_type` returns exactly the
concatenation, in collection order, of each addon's contribution, where
an addon contributes nothing when disabled — so no descriptor is derived
from a disabled addon — or when its manifest or transport URL is falsy,
and otherwise contributes one descriptor per manifest catalog entry of
the requested type exactly when the addon qualifies: its resources
contain the literal string `"catalog"`, or an object named `"catalog"`
whose declared types (falling back to the manifest's top-level types)
include the content type (`claimSection`). -/
theorem get_catalogs_for_type_amended (s : Schema) (o : RequestOutcome)
    (ct : String) (addons : List JVal)
    (hlog : StremioCredentials.is_logged_in s = true)
    (hfetch : StremioAddonService.get_addon_collection s.authKey o = .ok addons)
    (hwf : addons.all StremioCatalogService.wfAddon = true) :
    StremioCatalogService.get_catalogs_for_type s o ct =
      StremioCatalogService.claim_catalogs_for_type ct addons := by
  simp [StremioCatalogService.get_catalogs_for_type, hlog, hfetch,
    StremioCatalogService.catalogs_of_addons_wf ct addons hwf]

/-- Witness for the amended C1 on a two-addon collection (one disabled,
one enabled and qualifying with one `movie` and one `series` catalog). -/
theorem get_catalogs_for_type_amended_witness :
    StremioCatalogService.get_catalogs_for_type ⟨"k", "", ""⟩
        (.resp 200 (some (.obj [("result", .obj [("addons", .arr [
          .obj [("enabled", .bool false),
            ("manifest", .obj [("id", .str "dis"),
              ("resources", .arr [.str "catalog"]),
              ("catalogs", .arr [.obj [("type", .str "movie"),
                ("id", .str "c0"), ("name", .str "D")]])]),
            ("transportUrl", .str "http://d")],
          .obj [("manifest", .obj [("id", .str "en1"), ("name", .str "E"),
              ("resources", .arr [.obj [("name", .str "catalog"),
                ("types", .arr [.str "movie"])]]),
              ("catalogs", .arr [
                .obj [("type", .str "movie"), ("id", .str "c1"), ("name", .str "Top")],
                .obj [("type", .str "series"), ("id", .str "c2"), ("name", .str "S")]])]),
            ("transportUrl", .str "http://e")]])])])))
        "movie" =
      StremioCatalogService.claim_catalogs_for_type "movie" [
          .obj [("enabled", .bool false),
            ("manifest", .obj [("id", .str "dis"),
              ("resources", .arr [.str "catalog"]),
              ("catalogs", .arr [.obj [("type", .str "movie"),
                ("id", .str "c0"), ("name", .str "D")]])]),
            ("transportUrl", .str "http://d")],
          .obj [("manifest", .obj [("id", .str "en1"), ("name", .str "E"),
              ("resources", .arr [.obj [("name", .str "catalog"),
                ("types", .arr [.str "movie"])]]),
              ("catalogs", .arr [
                .obj [("type", .str "movie"), ("id", .str "c1"), ("name", .str "Top")],
                .obj [("type", .str "series"), ("id", .str "c2"), ("name", .str "S")]])]),
            ("transportUrl", .str "http://e")]] :=
  get_catalogs_for_type_amended ⟨"k", "", ""⟩
    (.resp 200 (some (.obj [("result", .obj [("addons", .arr [
      .obj [("enabled", .bool false),
        ("manifest", .obj [("id", .str "dis"),
          ("resources", .arr [.str "catalog"]),
          ("catalogs", .arr [.obj [("type", .str "movie"),
            ("id", .str "c0"), ("name", .str "D")]])]),
        ("transportUrl", .str "http://d")],
      .obj [("manifest", .obj [("id", .str "en1"), ("name", .str "E"),
          ("resources", .arr [.obj [("name", .str "catalog"),
            ("types", .arr [.str "movie"])]]),
          ("catalogs", .arr [
            .obj [("type", .str "movie"), ("id", .str "c1"), ("name", .str "Top")],
            .obj [("type", .str "series"), ("id", .str "c2"), ("name", .str "S")]])]),
        ("transportUrl", .str "http://e")]])])])))
    "movie"
    [.obj [("enabled", .bool false),
        ("manifest", .obj [("id", .str "dis"),
          ("resources", .arr [.str "catalog"]),
          ("catalogs", .arr [.obj [("type", .str "movie"),
            ("id", .str "c0"), ("name", .str "D")]])]),
        ("transportUrl", .str "http://d")],
     .obj [("manifest", .obj [("id", .str "en1"), ("name", .str "E"),
          ("resources", .arr [.obj [("name", .str "catalog"),
            ("types", .arr [.str "movie"])]]),
          ("catalogs", .arr [
            .obj [("type", .str "movie"), ("id", .str "c1"), ("name", .str "Top")],
            .obj [("type", .str "series"), ("id", .str "c2"), ("name", .str "S")]])]),
        ("transportUrl", .str "http://e")]]
    (by decide) (by decide) (by decide)

theorem fetchSections_wf (net : String → RequestOutcome) (maxItems : Int)
    (cs : List CatalogDesc)
    (h : cs.all (fun c =>
        isArrJ (StremioCatalogService.fetch_catalog_content net c 0)) = true) :
    StremioCatalogService.fetchSections net maxItems cs =
      .ok (cs.filterMap fun c =>
        if (listSliceTo maxItems
            (asArr (StremioCatalogService.fetch_catalog_content net c 0))).isEmpty
        then none
        else some ⟨c.catalog_name, c.addon_name, c.catalog_id,
          .arr (listSliceTo maxItems
            (asArr (StremioCatalogService.fetch_catalog_content net c 0)))⟩) := by
  induction cs with
  | nil => rfl
  | cons c cs ih =>
      rw [List.all_cons, Bool.and_eq_true] at h
      obtain ⟨hc, hcs⟩ := h
      cases hf : StremioCatalogService.fetch_catalog_content net c 0 with
      | arr l =>
          by_cases hemp : listSliceTo maxItems l = []
          · simp [StremioCatalogService.fetchSections, hf, pySliceTo, ih hcs,
              pyTruthy, hemp, asArr, List.filterMap_cons]
          · simp [StremioCatalogService.fetchSections, hf, pySliceTo, ih hcs,
              pyTruthy, hemp, asArr, List.filterMap_cons]
      | str v => rw [hf] at hc; simp [isArrJ] at hc
      | num v => rw [hf] at hc; simp [isArrJ] at hc
      | bool v => rw [hf] at hc; simp [isArrJ] at hc
      | null => rw [hf] at hc; simp [isArrJ] at hc
      | obj v => rw [hf] at hc; simp [isArrJ] at hc

/-- C2, counterexample to the claim as stated.  One catalog is
discovered, its fetch succeeds with one item, yet with
`max_items_per_catalog = 0` the result has no section at all: the code
truncates *before* the non-emptiness check, so a successful non-empty
fetch can still produce no section, contradicting "one section per
discovered catalog whose fetch yielded a non-empty item list". -/
theorem fetch_all_catalogs_claim_counterexample :
    StremioCatalogService.fetch_all_catalogs_for_type ⟨"k", "", ""⟩
        (.resp 200 (some (.obj [("result", .obj [("addons", .arr [
          .obj [("manifest", .obj [("id", .str "en1"), ("name", .str "E"),
              ("resources", .arr [.str "catalog"]),
              ("catalogs", .arr [.obj [("type", .str "movie"),
                ("id", .str "c1"), ("name", .str "Top")]])]),
            ("transportUrl", .str "http://e")]])])])))
        (fun _ => .resp 200 (some (.obj [("metas", .arr [.obj [("id", .str "m1")]])])))
        "movie" 0 = .ok [] ∧
    StremioCatalogService.get_catalogs_for_type ⟨"k", "", ""⟩
        (.resp 200 (some (.obj [("result", .obj [("addons", .arr [
          .obj [("manifest", .obj [("id", .str "en1"), ("name", .str "E"),
              ("resources", .arr [.str "catalog"]),
              ("catalogs", .arr [.obj [("type", .str "movie"),
                ("id", .str "c1"), ("name", .str "Top")]])]),
            ("transportUrl", .str "http://e")]])])])))
        "movie" =
      [⟨.str "E", .str "en1", .str "c1", .str "Top", .str "movie",
        .str "http://e", .arr []⟩] ∧
    StremioCatalogService.fetch_catalog_content
        (fun _ => .resp 200 (some (.obj [("metas", .arr [.obj [("id", .str "m1")]])])))
        ⟨.str "E", .str "en1", .str "c1", .str "Top", .str "movie",
          .str "http://e", .arr []⟩ 0 = .arr [.obj [("id", .str "m1")]] := by
  exact ⟨by decide, by decide, by decide⟩

/-- C2, amended.  When every discovered catalog's fetch result is a list
(a failed fetch yields the empty list), `fetch_all_catalogs_for_type`
returns, in discovery order, one section per discovered catalog whose
*truncated* item list (`items[:max_items_per_catalog]`) is non-empty,
carrying exactly that truncated list — so a per-catalog failure
contributes no section and does not disturb the others — and, for a
non-negative bound, every returned section holds at most
`max_items_per_catalog` items. -/
theorem fetch_all_catalogs_amended (s : Schema) (o : RequestOutcome)
    (net : String → RequestOutcome) (ct : String) (maxItems : Int)
    (h : (StremioCatalogService.get_catalogs_for_type s o ct).all
        (fun c => isArrJ (StremioCatalogService.fetch_catalog_content net c 0)) = true) :
    StremioCatalogService.fetch_all_catalogs_for_type s o net ct maxItems =
      .ok ((StremioCatalogService.get_catalogs_for_type s o ct).filterMap fun c =>
        if (listSliceTo maxItems
            (asArr (StremioCatalogService.fetch_catalog_content net c 0))).isEmpty
        then none
        else some ⟨c.catalog_name, c.addon_name, c.catalog_id,
          .arr (listSliceTo maxItems
            (asArr (StremioCatalogService.fetch_catalog_content net c 0)))⟩) ∧
    (∀ secs, StremioCatalogService.fetch_all_catalogs_for_type s o net ct maxItems
        = .ok secs → 0 ≤ maxItems →
      ∀ sec ∈ secs, (asArr sec.items).length ≤ maxItems.toNat) := by
  have h1 := fetchSections_wf net maxItems
    (StremioCatalogService.get_catalogs_for_type s o ct) h
  constructor
  · exact h1
  · intro secs hsecs hmax sec hmem
    rw [StremioCatalogService.fetch_all_catalogs_for_type] at hsecs
    rw [h1] at hsecs
    injection hsecs with hsecs
    subst hsecs
    obtain ⟨c, _, heq⟩ := List.mem_filterMap.mp hmem
    by_cases hemp : (listSliceTo maxItems
        (asArr (StremioCatalogService.fetch_catalog_content net c 0))).isEmpty = true
    · rw [if_pos hemp] at heq
      exact absurd heq (by simp)
    · rw [if_neg hemp] at heq
      injection heq with heq
      subst heq
      simp only [asArr, listSliceTo, if_pos hmax]
      exact List.length_take_le _ _

/-- Witness for the amended C2: one discovered catalog fetching one item
under bound 20 yields exactly one section with that item. -/
theorem fetch_all_catalogs_amended_witness :
    StremioCatalogService.fetch_all_catalogs_for_type ⟨"k", "", ""⟩
        (.resp 200 (some (.obj [("result", .obj [("addons", .arr [
          .obj [("manifest", .obj [("id", .str "en1"), ("name", .str "E"),
              ("resources", .arr [.str "catalog"]),
              ("catalogs", .arr [.obj [("type", .str "movie"),
                ("id", .str "c1"), ("name", .str "Top")]])]),
            ("transportUrl", .str "http://e")]])])])))
        (fun _ => .resp 200 (some (.obj [("metas", .arr [.obj [("id", .str "m1")]])])))
        "movie" 20 =
      .ok [⟨.str "Top", .str "E", .str "c1", .arr [.obj [("id", .str "m1")]]⟩] :=
  ((fetch_all_catalogs_amended ⟨"k", "", ""⟩
      (.resp 200 (some (.obj [("result", .obj [("addons", .arr [
        .obj [("manifest", .obj [("id", .str "en1"), ("name", .str "E"),
            ("resources", .arr [.str "catalog"]),
            ("catalogs", .arr [.obj [("type", .str "movie"),
              ("id", .str "c1"), ("name", .str "Top")]])]),
          ("transportUrl", .str "http://e")]])])])))
      (fun _ => .resp 200 (some (.obj [("metas", .arr [.obj [("id", .str "m1")]])])))
      "movie" 20 (by decide)).1).trans (by decide)

/-!
Sanity checks of the Python-semantics helpers on concrete values. -/

example : pyTruthy (.obj []) = false := by decide
example : lookupKey [("a", .num 1), ("b", .num 2)] "b" = some (.num 2) := by decide
example : pyStr (.num (-3)) = "-3" := by rfl
example : pyInS "movie" (.arr [.str "series", .str "movie"]) = .ok true := by decide
example : charsContain "bc".toList "abcd".toList = true := by decide
example : listSliceTo (-1) [.num 1, .num 2, .num 3] = [.num 1, .num 2] := by decide
